import Mathlib

/-!
Shallow embedding of the Xtickr sticker-maker pipeline (src/app.py):
helper functions, the five pipeline stages and the main control flow,
together with theorems about the behaviours the specification describes.

External collaborators (PIL, rembg, streamlit widgets) are modelled as
explicit function parameters or as small concrete models of their
documented contracts; everything the repository itself computes is
translated directly from src/app.py.
-/

namespace Xticker

/-- Channel layout of an in-memory bitmap: RGB (3 channels) or RGBA
(4 channels, alpha = opacity). -/
inductive PixMode where
  | RGB
  | RGBA
deriving DecidableEq

/-- An in-memory bitmap (models a PIL `Image`): dimensions, channel mode,
and per-coordinate colour / alpha lookups.  The `alpha` field is only
meaningful when `mode = RGBA`. -/
structure Image where
  width : Nat
  height : Nat
  mode : PixMode
  rgb : Nat → Nat → Nat × Nat × Nat
  alpha : Nat → Nat → Nat

/-- `opacity_to_255` from src/app.py line 20: `int(255 * (opacity_percent / 100))`.
Python evaluates `opacity_percent / 100` in binary floating point and `int`
truncates toward zero; for every integer percentage 0 ≤ p ≤ 100 that float
computation truncates to exactly `255 * p / 100` in natural-number (floor)
division, which is the embedding used here. -/
def opacity_to_255 (opacity_percent : Nat) : Nat :=
  255 * opacity_percent / 100

/-- Modelled from the spec: the specification's formula
`alpha = round(255 * opacity_percent / 100)`, with halves rounded up, i.e.
`⌊255p/100 + 1/2⌋ = (2·255·p + 100) / 200` in natural division.  Written only
to compare the spec's rounding against the code's truncation. -/
def specRoundOpacity (opacity_percent : Nat) : Nat :=
  (2 * (255 * opacity_percent) + 100) / 200

/-- C1 (amended): for every opacity percentage `p`, `opacity_to_255 p` is the
floor (truncation) of the rational `255·p/100` — not its rounding — and the
endpoints map to 0 and 255. -/
theorem opacity_truncation (p : Nat) :
    opacity_to_255 p = ⌊(255 * (p : ℚ) / 100)⌋₊ ∧
      opacity_to_255 0 = 0 ∧ opacity_to_255 100 = 255 := by
  refine ⟨?_, rfl, rfl⟩
  have h : 255 * (p : ℚ) / 100 = ((255 * p : ℕ) : ℚ) / ((100 : ℕ) : ℚ) := by
    push_cast
    ring
  rw [opacity_to_255, h, Nat.floor_div_eq_div]

/-- C1 (counterexample): at `p = 50` the code truncates `127.5` to alpha 127,
while the spec's `round(255*p/100)` gives 128 (so also under round-half-to-even,
since 128 is even). -/
theorem opacity_round_counterexample :
    opacity_to_255 50 = 127 ∧ specRoundOpacity 50 = 128 ∧
      opacity_to_255 50 ≠ specRoundOpacity 50 := by
  decide

/-- C10: `opacity_to_255` is monotone non-decreasing, and on inputs ≤ 100 its
result is at most 255 (hence always within the 8-bit alpha range [0,255]). -/
theorem opacity_monotone_bounded (p q : Nat) (hpq : p ≤ q) (hq : q ≤ 100) :
    opacity_to_255 p ≤ opacity_to_255 q ∧ opacity_to_255 q ≤ 255 := by
  unfold opacity_to_255
  constructor
  · exact Nat.div_le_div_right (Nat.mul_le_mul_left _ hpq)
  · calc 255 * q / 100 ≤ 255 * 100 / 100 :=
          Nat.div_le_div_right (Nat.mul_le_mul_left _ hq)
    _ = 255 := rfl

/-- C10 witness: the monotonicity/bound theorem at the concrete pair 40 ≤ 80. -/
theorem opacity_monotone_bounded_witness :
    opacity_to_255 40 ≤ opacity_to_255 80 ∧ opacity_to_255 80 ≤ 255 :=
  opacity_monotone_bounded 40 80 (by decide) (by decide)

/-- Models PIL `image.convert("RGBA")`: an RGBA image is returned unchanged
(PIL returns an identical copy); an RGB image gains a fully opaque alpha
channel (every alpha sample 255), its colour samples untouched. -/
def convertRGBA (img : Image) : Image :=
  match img.mode with
  | .RGBA => img
  | .RGB => { img with mode := .RGBA, alpha := fun _ _ => 255 }

/-- Outcome of the external `rembg.remove` call: either an output image or a
raised exception carrying a message. -/
inductive MattingResult where
  | ok (img : Image)
  | err (msg : String)

/-- `remove_background` from src/app.py lines 86-106.  `remove_bg` is the
sidebar checkbox, `matting` the external `rembg.remove` call.  Returns the
image the caller receives (Python's implicit `None` on the caught-exception
path becomes `none`) together with the sidebar messages shown.  -/
def remove_background (remove_bg : Bool) (matting : Image → MattingResult)
    (image : Image) : Option Image × List String :=
  if remove_bg then
    match matting image with
    | .ok out => (some out, ["✅ Background removed!"])
    | .err e => (none, ["❌ Failed to remove background: " ++ e])
  else
    (some (convertRGBA image), [])

/-- C8: with background removal disabled, the stage returns an image of the
same dimensions whose RGB samples all equal the input's; the output always
has an alpha channel, which is fully opaque (255 everywhere) when the input
had none and is the input's own alpha channel when it had one. -/
theorem bg_disabled_preserves_pixels (matting : Image → MattingResult) (img : Image) :
    ∃ out, (remove_background false matting img).1 = some out ∧
      out.width = img.width ∧ out.height = img.height ∧
      out.mode = PixMode.RGBA ∧
      (∀ x y, out.rgb x y = img.rgb x y) ∧
      (img.mode = PixMode.RGB → ∀ x y, out.alpha x y = 255) ∧
      (img.mode = PixMode.RGBA → ∀ x y, out.alpha x y = img.alpha x y) := by
  refine ⟨convertRGBA img, rfl, ?_⟩
  unfold convertRGBA
  cases h : img.mode <;>
    simp [h]

/-- Value of one hexadecimal digit character, as Python's `int(_, 16)`
accepts it (digits, lowercase and uppercase letters); `none` models the
`ValueError` raised on any other character. -/
def hexDigitVal (c : Char) : Option Nat :=
  if '0' ≤ c ∧ c ≤ '9' then some (c.toNat - '0'.toNat)
  else if 'a' ≤ c ∧ c ≤ 'f' then some (c.toNat - 'a'.toNat + 10)
  else if 'A' ≤ c ∧ c ≤ 'F' then some (c.toNat - 'A'.toNat + 10)
  else none

/-- Python `int(two-character slice, 16)`: sixteen times the first digit plus
the second, failing when either character is not a hex digit. -/
def hexPairVal (c1 c2 : Char) : Option Nat :=
  match hexDigitVal c1, hexDigitVal c2 with
  | some hi, some lo => some (16 * hi + lo)
  | _, _ => none

/-- The colour parsing of src/app.py lines 124-126:
`r = int(s[1:3], 16)`, `g = int(s[3:5], 16)`, `b = int(s[5:7], 16)`.
The character at index 0 (the `#`) and anything beyond index 6 are ignored,
exactly as Python slicing ignores them; a string shorter than 7 characters
would give `int` a short or empty slice and raise, hence `none`. -/
def parseHexColor (s : String) : Option (Nat × Nat × Nat) :=
  match s.data with
  | _ :: c1 :: c2 :: c3 :: c4 :: c5 :: c6 :: _ =>
    match hexPairVal c1 c2, hexPairVal c3 c4, hexPairVal c5 c6 with
    | some r, some g, some b => some (r, g, b)
    | _, _, _ => none
  | _ => none

/-- The uppercase hexadecimal digit character for a value 0-15. -/
def toHexDigit (d : Nat) : Char :=
  if d < 10 then Char.ofNat (48 + d) else Char.ofNat (55 + d)

/-- Two-digit uppercase hexadecimal rendering of a byte. -/
def byteHex (n : Nat) : String :=
  String.mk [toHexDigit (n / 16), toHexDigit (n % 16)]

/-- The `#RRGGBB` string encoding the byte triple (r, g, b). -/
def colorHex (r g b : Nat) : String :=
  "#" ++ byteHex r ++ byteHex g ++ byteHex b

theorem hexDigitVal_toHexDigit (d : Nat) (hd : d < 16) :
    hexDigitVal (toHexDigit d) = some d := by
  interval_cases d <;> decide

theorem hexPairVal_byte (n : Nat) (hn : n < 256) :
    hexPairVal (toHexDigit (n / 16)) (toHexDigit (n % 16)) = some n := by
  have h1 : n / 16 < 16 := Nat.div_lt_of_lt_mul hn
  have h2 : n % 16 < 16 := Nat.mod_lt _ (by decide)
  rw [hexPairVal, hexDigitVal_toHexDigit _ h1, hexDigitVal_toHexDigit _ h2]
  simp [Nat.div_add_mod]

/-- C6: for every byte triple (r, g, b), parsing the `#RRGGBB` string that
encodes it recovers exactly (r, g, b). -/
theorem parseHexColor_roundtrip (r g b : Nat)
    (hr : r < 256) (hg : g < 256) (hb : b < 256) :
    parseHexColor (colorHex r g b) = some (r, g, b) := by
  have hdata : (colorHex r g b).data =
      ['#', toHexDigit (r / 16), toHexDigit (r % 16),
       toHexDigit (g / 16), toHexDigit (g % 16),
       toHexDigit (b / 16), toHexDigit (b % 16)] := by
    simp [colorHex, byteHex, String.data_append]
  simp [parseHexColor, hdata, hexPairVal_byte r hr, hexPairVal_byte g hg,
    hexPairVal_byte b hb]

/-- C6 witness: the round-trip theorem at (255, 255, 255): `#FFFFFF` parses
back to (255, 255, 255). -/
theorem parseHexColor_roundtrip_witness :
    parseHexColor (colorHex 255 255 255) = some (255, 255, 255) :=
  parseHexColor_roundtrip 255 255 255 (by decide) (by decide) (by decide)

/-- The four text anchor modes of the sidebar radio button. -/
inductive PosMode where
  | bottom
  | top
  | center
  | custom
deriving DecidableEq

/-- The position logic of src/app.py lines 143-158.  Widths and heights are
natural numbers but the arithmetic is Python's over `int`, so the result is a
pair of integers: `//` is floor division (`Int.fdiv`) and `img_h - text_height - 10`
may be negative.  Custom mode draws at the same position as Center (the
interactive preview does not feed back into the computed position). -/
def textPosition (mode : PosMode) (img_w img_h text_w text_h : Nat) : Int × Int :=
  match mode with
  | .bottom => (Int.fdiv ((img_w : Int) - text_w) 2, (img_h : Int) - text_h - 10)
  | .top => (Int.fdiv ((img_w : Int) - text_w) 2, 10)
  | .center => (Int.fdiv ((img_w : Int) - text_w) 2, Int.fdiv ((img_h : Int) - text_h) 2)
  | .custom => (Int.fdiv ((img_w : Int) - text_w) 2, Int.fdiv ((img_h : Int) - text_h) 2)

/-- Python `str.strip()`: the string with leading and trailing whitespace
characters removed. -/
def pyStrip (s : String) : String :=
  String.mk (((s.data.dropWhile Char.isWhitespace).reverse.dropWhile
    Char.isWhitespace).reverse)

/-- `add_text_to_image` from src/app.py lines 111-163, with the external PIL
calls as parameters: `measure` models `draw.textbbox` at a font size (the
rendered text's width and height), `draw` models `ImageDraw.text`
compositing a string at a position with an RGBA fill onto a bitmap.
The colour string is parsed (lines 124-127) before the emptiness test, so a
malformed colour raises (`none`) even for empty text; `image.copy()` is the
identity on the bitmap value.  When the stripped text is empty nothing is
drawn and the copy is returned as-is. -/
def add_text_to_image (measure : Nat → String → Nat × Nat)
    (draw : Image → Int × Int → String → Nat × Nat × Nat × Nat → Image)
    (image : Image) (text_input : String) (text_size : Nat)
    (text_color : String) (text_opacity : Nat) (mode : PosMode) : Option Image :=
  match parseHexColor text_color with
  | none => none
  | some (r, g, b) =>
    let a := opacity_to_255 text_opacity
    let result_img := image
    if pyStrip text_input = "" then some result_img
    else
      let wh := measure text_size text_input
      let position := textPosition mode image.width image.height wh.1 wh.2
      some (draw result_img position text_input (r, g, b, a))

/-- C5: whenever the text content strips to the empty string (empty or
whitespace-only), the text stage returns the input bitmap itself, for any
valid colour string. -/
theorem add_text_empty_id (measure : Nat → String → Nat × Nat)
    (draw : Image → Int × Int → String → Nat × Nat × Nat × Nat → Image)
    (image : Image) (text_input : String) (text_size : Nat)
    (text_color : String) (text_opacity : Nat) (mode : PosMode)
    (c : Nat × Nat × Nat)
    (hc : parseHexColor text_color = some c)
    (ht : pyStrip text_input = "") :
    add_text_to_image measure draw image text_input text_size text_color
      text_opacity mode = some image := by
  obtain ⟨r, g, b⟩ := c
  rw [add_text_to_image, hc]
  simp [ht]

/-- A concrete 100 × 80 RGB test bitmap. -/
def testImg : Image :=
  { width := 100, height := 80, mode := .RGB,
    rgb := fun _ _ => (10, 20, 30), alpha := fun _ _ => 255 }

/-- A concrete text-measure model: every string renders 60 wide, 20 high. -/
def testMeasure : Nat → String → Nat × Nat := fun _ _ => (60, 20)

/-- A concrete draw model that records nothing (returns the bitmap). -/
def testDraw : Image → Int × Int → String → Nat × Nat × Nat × Nat → Image :=
  fun img _ _ _ => img

/-- C5 witness: the empty-text theorem at a whitespace-only string, the
concrete test bitmap and the colour `#FFFFFF`. -/
theorem add_text_empty_id_witness :
    add_text_to_image testMeasure testDraw testImg "  " 40 "#FFFFFF" 100
      PosMode.bottom = some testImg :=
  add_text_empty_id testMeasure testDraw testImg "  " 40 "#FFFFFF" 100
    PosMode.bottom (255, 255, 255) (by decide) (by decide)

/-- C7: with the Bottom anchor and non-empty stripped text, the stage hands
the draw primitive exactly the position
`((img_w - text_w) // 2, img_h - text_h - 10)` where `(text_w, text_h)` is
the measured text extent, together with the parsed RGBA fill. -/
theorem add_text_bottom_position (measure : Nat → String → Nat × Nat)
    (draw : Image → Int × Int → String → Nat × Nat × Nat × Nat → Image)
    (image : Image) (text_input : String) (text_size : Nat)
    (text_color : String) (text_opacity : Nat)
    (r g b : Nat)
    (hc : parseHexColor text_color = some (r, g, b))
    (ht : ¬ pyStrip text_input = "") :
    add_text_to_image measure draw image text_input text_size text_color
      text_opacity PosMode.bottom =
      some (draw image
        (Int.fdiv ((image.width : Int) - (measure text_size text_input).1) 2,
         (image.height : Int) - (measure text_size text_input).2 - 10)
        text_input (r, g, b, opacity_to_255 text_opacity)) := by
  rw [add_text_to_image, hc]
  simp [ht, textPosition]

/-- C7 witness: the Bottom-position theorem at the concrete test inputs;
the measured extent is (60, 20) on a 100 × 80 bitmap, so the draw position
is ((100 - 60) // 2, 80 - 20 - 10) = (20, 50). -/
theorem add_text_bottom_position_witness :
    add_text_to_image testMeasure testDraw testImg "hi" 40 "#FFFFFF" 100
      PosMode.bottom =
      some (testDraw testImg
        (Int.fdiv ((testImg.width : Int) - (testMeasure 40 "hi").1) 2,
         (testImg.height : Int) - (testMeasure 40 "hi").2 - 10)
        "hi" (255, 255, 255, opacity_to_255 100)) :=
  add_text_bottom_position testMeasure testDraw testImg "hi" 40 "#FFFFFF" 100
    255 255 255 (by decide) (by decide)

/-- The quality-stepping loop of src/app.py lines 176-181, abstracted over
the codec: `size q` is the byte size `os.path.getsize` reports after
`img.save(file_name, "WEBP", quality=q, method=6)`.  The result is the list
of quality values at which an encode (save) happened, in order: starting at
the given quality, re-encode while the file exceeds 100 KiB, stepping the
quality down by 10, and stop after an encode at quality below 30 would step
out of the `quality >= 20` guard. -/
def qualityLoop (size : Nat → Nat) (quality : Nat) : List Nat :=
  if h : 20 ≤ quality then
    if size quality ≤ 100 * 1024 then [quality]
    else quality :: qualityLoop size (quality - 10)
  else []
termination_by quality
decreasing_by omega

/-- The full descending quality schedule the loop can ever visit from a
starting quality: every tenth value down to 20. -/
def qualitySchedule (quality : Nat) : List Nat :=
  if 20 ≤ quality then quality :: qualitySchedule (quality - 10) else []
termination_by quality
decreasing_by omega

theorem qualityLoop_prefix (size : Nat → Nat) (quality : Nat) :
    qualityLoop size quality <+: qualitySchedule quality := by
  induction quality using Nat.strong_induction_on with
  | _ q ih =>
    rw [qualityLoop, qualitySchedule]
    by_cases h : 20 ≤ q
    · by_cases hs : size q ≤ 100 * 1024
      · simp only [h, ↓reduceDIte, hs, ↓reduceIte, if_pos]
        exact ⟨qualitySchedule (q - 10), rfl⟩
      · simp only [h, ↓reduceDIte, hs, ↓reduceIte, if_pos]
        obtain ⟨t, ht⟩ := ih (q - 10) (by omega)
        exact ⟨t, by rw [List.cons_append, ht]⟩
    · simp [h]

theorem qualitySchedule_90 :
    qualitySchedule 90 = [90, 80, 70, 60, 50, 40, 30, 20] := by
  simp [qualitySchedule]

/-- C4: from the starting quality 90, the export loop encodes at most 8
times, each encode happens at one of the qualities 90, 80, ..., 20, and in
particular never at a quality below 20 (the loop always terminates — it is
a total function here, its recursion strictly decreasing). -/
theorem export_loop_bounded (size : Nat → Nat) :
    (qualityLoop size 90).length ≤ 8 ∧
      ∀ q ∈ qualityLoop size 90,
        q ∈ [90, 80, 70, 60, 50, 40, 30, 20] ∧ 20 ≤ q := by
  have hp := qualityLoop_prefix size 90
  rw [qualitySchedule_90] at hp
  refine ⟨by simpa using hp.length_le, fun q hq => ?_⟩
  have hmem : q ∈ [90, 80, 70, 60, 50, 40, 30, 20] := hp.subset hq
  refine ⟨hmem, ?_⟩
  fin_cases hmem <;> decide

/-- Models PIL `Image.resize((w, h), Image.LANCZOS)`: the output has exactly
the requested dimensions and the same channel mode; the Lanczos resampling
itself is external to the repository and is abstracted as coordinate
rescaling of the source samples. -/
def resize (img : Image) (w h : Nat) : Image :=
  { width := w, height := h, mode := img.mode,
    rgb := fun x y => img.rgb (x * img.width / w) (y * img.height / h),
    alpha := fun x y => img.alpha (x * img.width / w) (y * img.height / h) }

/-- `make_whatsapp_sticker` from src/app.py lines 169-183: force RGBA,
resize to 512 × 512 with Lanczos, build `<prefix>_<id>.webp` from the random
identifier, then run the quality-stepping loop from quality 90.  Returns the
saved bitmap, the file name, and the list of qualities encoded at (the file
on disk after the loop is the encode at the list's last quality). -/
def make_whatsapp_sticker (encSize : Image → Nat → Nat) (unique_id : String)
    (img : Image) (prefixStr : String) : Image × String × List Nat :=
  let resized := resize (convertRGBA img) 512 512
  let file_name := prefixStr ++ "_" ++ unique_id ++ ".webp"
  (resized, file_name, qualityLoop (encSize resized) 90)

/-- C2: whatever the input bitmap's dimensions, the exported sticker bitmap
is exactly 512 × 512. -/
theorem sticker_output_512 (encSize : Image → Nat → Nat) (unique_id : String)
    (img : Image) (prefixStr : String) :
    (make_whatsapp_sticker encSize unique_id img prefixStr).1.width = 512 ∧
      (make_whatsapp_sticker encSize unique_id img prefixStr).1.height = 512 :=
  ⟨rfl, rfl⟩

/-- C9: if the very first encode, at quality 90, already fits in 100 KiB,
the loop stops at once: the attempt list is exactly `[90]`. -/
theorem first_encode_fits_single_attempt (encSize : Image → Nat → Nat)
    (unique_id : String) (img : Image) (prefixStr : String)
    (h : encSize (resize (convertRGBA img) 512 512) 90 ≤ 100 * 1024) :
    (make_whatsapp_sticker encSize unique_id img prefixStr).2.2 = [90] := by
  rw [make_whatsapp_sticker, qualityLoop]
  simp [h]

/-- A codec model whose encodes always have size zero. -/
def zeroEnc : Image → Nat → Nat := fun _ _ => 0

/-- C9 witness: the single-attempt theorem at the concrete test bitmap and
the zero-size codec model. -/
theorem first_encode_fits_single_attempt_witness :
    (make_whatsapp_sticker zeroEnc "abcd1234" testImg "xtickr_sticker").2.2 =
      [90] :=
  first_encode_fits_single_attempt zeroEnc "abcd1234" testImg "xtickr_sticker"
    (by decide)

/-- The steps of `main` a run can enter, in pipeline order.  `preview` is
the `st.sidebar.image` call after background removal, `sticker` the export
triggered by the Create Sticker button. -/
inductive Stage where
  | upload
  | crop
  | removeBg
  | preview
  | addText
  | sticker
deriving DecidableEq

/-- Everything a single run of the app reads: the uploaded file, the result
of the interactive crop widget, the sidebar widget values, the external
matting call, the PIL text primitives, the codec size behaviour and the
random identifier. -/
structure AppInputs where
  uploaded : Option Image
  cropResult : Image → Option Image
  remove_bg : Bool
  matting : Image → MattingResult
  text_input : String
  text_size : Nat
  text_color : String
  text_opacity : Nat
  mode : PosMode
  measure : Nat → String → Nat × Nat
  draw : Image → Int × Int → String → Nat × Nat × Nat × Nat → Image
  createClicked : Bool
  encSize : Image → Nat → Nat
  unique_id : String

/-- `main` from src/app.py lines 189-222.  Returns the stages the run
entered in order, the sidebar messages of the background-removal stage, and
the exported file name when one was produced.  `st.stop()` on a missing
upload or unconfirmed crop ends the run there.  When `remove_background`
has caught a matting error it returns `None` with no halt, and `main`
continues into the downstream preview (`st.sidebar.image`) with that `None`
value; rendering `None` raises, so the run aborts inside that downstream
stage and the text/export steps behind it are not reached.  Similarly a
crash inside the text stage (`none`) stops the run there. -/
def main (inp : AppInputs) : List Stage × List String × Option String :=
  match inp.uploaded with
  | none => ([Stage.upload], [], none)
  | some image =>
    match inp.cropResult image with
    | none => ([Stage.upload, Stage.crop], [], none)
    | some cropped_img =>
      let bg := remove_background inp.remove_bg inp.matting cropped_img
      match bg.1 with
      | none =>
        ([Stage.upload, Stage.crop, Stage.removeBg, Stage.preview], bg.2, none)
      | some bg_removed_img =>
        match add_text_to_image inp.measure inp.draw bg_removed_img
            inp.text_input inp.text_size inp.text_color inp.text_opacity
            inp.mode with
        | none =>
          ([Stage.upload, Stage.crop, Stage.removeBg, Stage.preview,
            Stage.addText], bg.2, none)
        | some final_img =>
          if inp.createClicked then
            let out := make_whatsapp_sticker inp.encSize inp.unique_id
              final_img "xtickr_sticker"
            ([Stage.upload, Stage.crop, Stage.removeBg, Stage.preview,
              Stage.addText, Stage.sticker], bg.2, some out.2.1)
          else
            ([Stage.upload, Stage.crop, Stage.removeBg, Stage.preview,
              Stage.addText], bg.2, none)

/-- A matting model that always raises, with message "boom". -/
def failMatting : Image → MattingResult := fun _ => MattingResult.err "boom"

/-- A complete run input whose matting call raises: background removal on,
a confirmed crop of the test bitmap, and the export button pressed. -/
def failRunInputs : AppInputs :=
  { uploaded := some testImg, cropResult := fun img => some img,
    remove_bg := true, matting := failMatting,
    text_input := "", text_size := 40, text_color := "#FFFFFF",
    text_opacity := 100, mode := PosMode.bottom,
    measure := testMeasure, draw := testDraw,
    createClicked := true, encSize := zeroEnc, unique_id := "abcd1234" }

/-- C3 (evaluated at the failing input): when the matting call raises, the
error message is surfaced and no usable image or file results — but `main`
still proceeds past the failed stage into the downstream preview with the
`None` value, because `remove_background` catches the exception without
halting; the claim's "the pipeline does not proceed to the downstream
stages" is what the code fails to do (the run only dies when the preview
chokes on `None`, and the export stage is never reached). -/
theorem bg_failure_still_proceeds :
    ("❌ Failed to remove background: boom" ∈ (main failRunInputs).2.1) ∧
      Stage.preview ∈ (main failRunInputs).1 ∧
      (main failRunInputs).2.2 = none ∧
      Stage.sticker ∉ (main failRunInputs).1 := by
  decide

end Xticker
